import Mathlib

/-!
# Veriflow: a shallow embedding of the on-ledger version-control program

This file models the Solana program in `src/solana-program/src/` (state.rs,
error.rs, instruction.rs, processor.rs).  Accounts are modelled at the record
level: an account's data is `Option Rec` (`none` = no data / fresh account;
deserialization of the wrong record kind fails as borsh decoding does).
Pubkeys are natural numbers; `[u8; 32]` hashes are modelled by `Nat` — the
handlers only ever copy these values and compare addresses for equality.
`u64` counters are modelled on `Nat`: the only arithmetic the program performs
on them is `current_version += 1`, and each increment requires a fresh
version account to have been created, so the 2^64 wraparound is unreachable.
Every handler is translated check-for-check from processor.rs, returning
`Except ProgErr` of exactly the records it serializes; an error means no
record is written (the host ledger reverts the whole operation).
-/

namespace Veriflow

abbrev Pubkey := Nat

/-- Models `[u8; 32]` content hashes; the program only copies these values. -/
abbrev Hash := Nat

/-- Models `[0u8; 32]`, the all-zero state root a fresh workspace gets. -/
def ZERO_HASH : Hash := 0

/-! ## PDA seeds (state.rs lines 4-9) -/

/-- `b"org"` -/
def ORG_SEED : List Nat := [111, 114, 103]

/-- `b"workspace"` -/
def WORKSPACE_SEED : List Nat := [119, 111, 114, 107, 115, 112, 97, 99, 101]

/-- `b"version"` -/
def VERSION_SEED : List Nat := [118, 101, 114, 115, 105, 111, 110]

/-- `b"pr"` -/
def PR_SEED : List Nat := [112, 114]

/-- `b"execution"` -/
def EXECUTION_SEED : List Nat := [101, 120, 101, 99, 117, 116, 105, 111, 110]

/-! ## Byte-string helpers used in seed composition and sizing -/

/-- UTF-8 encoding of one unicode scalar value (what `str::as_bytes` /
`char::len_utf8` use). -/
def charUtf8Bytes (c : Char) : List Nat :=
  let n := c.toNat
  if n < 128 then [n]
  else if n < 2048 then [192 + n / 64, 128 + n % 64]
  else if n < 65536 then [224 + n / 4096, 128 + n / 64 % 64, 128 + n % 64]
  else [240 + n / 262144, 128 + n / 4096 % 64, 128 + n / 64 % 64, 128 + n % 64]

/-- A Rust `String` is modelled as its list of chars; `as_bytes()` is its
UTF-8 encoding. -/
def strBytes (s : List Char) : List Nat := (s.map charUtf8Bytes).flatten

/-- The UTF-8 byte length of a string (`String::len` in Rust, which borsh
uses as the 4-byte length prefix and payload size). -/
def strUtf8Size (s : List Char) : Nat := (strBytes s).length

/-- The 32 little-endian bytes of a pubkey (`Pubkey::as_ref`). -/
def pubkeyBytes (k : Pubkey) : List Nat :=
  (List.range 32).map (fun i => k / 256 ^ i % 256)

/-- `u64::to_le_bytes`. -/
def u64le (n : Nat) : List Nat :=
  (List.range 8).map (fun i => n / 256 ^ i % 256)

/-- `clock.unix_timestamp as u64`: two's-complement reinterpretation of the
i64 timestamp. -/
def i64AsU64 (t : Int) : Nat := (t % (2 ^ 64 : Int)).toNat

/-- Injective packing of a seed list into a number: each seed chunk is
preceded by a 0 digit and its bytes become nonzero digits base 257. -/
def encodeSeeds (seeds : List (List Nat)) : Nat :=
  seeds.foldl (fun acc s => s.foldl (fun a b => a * 257 + b % 256 + 1) (acc * 257)) 0

/-- Model of `Pubkey::find_program_address`: a deterministic pure function of
the seed byte-strings and the program id.  The bump byte is omitted — the
program uses it only to re-sign the account-creation call, never in state. -/
def findProgramAddress (seeds : List (List Nat)) (programId : Pubkey) : Pubkey :=
  encodeSeeds (pubkeyBytes programId :: seeds)

/-! ## Record schemas (state.rs) -/

structure Organization where
  is_initialized : Bool
  owner : Pubkey
  created_at : Int
  workspace_count : Nat
  deriving DecidableEq, Repr

def Organization.LEN : Nat := 1 + 32 + 8 + 8

/-- Borsh-serialized byte size of an Organization (all fields fixed width). -/
def Organization.serializedSize (_o : Organization) : Nat := 1 + 32 + 8 + 8

structure Workspace where
  is_initialized : Bool
  organization : Pubkey
  creator : Pubkey
  current_version : Nat
  current_state_root : Hash
  parent_workspace : Option Pubkey
  fork_at_version : Option Nat
  created_at : Int
  deriving DecidableEq, Repr

def Workspace.LEN : Nat := 1 + 32 + 32 + 8 + 32 + (1 + 32) + (1 + 8) + 8

/-- Borsh size of an `Option` field of fixed payload width: a 1-byte presence
tag, plus the payload when present. -/
def optSize {α : Type} (width : Nat) (o : Option α) : Nat :=
  1 + match o with
      | some _ => width
      | none => 0

/-- Borsh-serialized byte size of a Workspace. -/
def Workspace.serializedSize (w : Workspace) : Nat :=
  1 + 32 + 32 + 8 + 32 + optSize 32 w.parent_workspace + optSize 8 w.fork_at_version + 8

structure VersionCommit where
  is_initialized : Bool
  workspace : Pubkey
  version_number : Nat
  content_hash : Hash
  parent_hash : Hash
  author : Pubkey
  timestamp : Int
  message : List Char
  deriving DecidableEq, Repr

def VersionCommit.MAX_MESSAGE_LEN : Nat := 64

def VersionCommit.LEN : Nat := 1 + 32 + 8 + 32 + 32 + 32 + 8 + 4 + VersionCommit.MAX_MESSAGE_LEN

/-- Borsh-serialized byte size of a VersionCommit: fixed fields, then the
message as a 4-byte length prefix plus its UTF-8 bytes. -/
def VersionCommit.serializedSize (c : VersionCommit) : Nat :=
  1 + 32 + 8 + 32 + 32 + 32 + 8 + (4 + strUtf8Size c.message)

inductive PRStatus where
  | Open
  | Approved
  | Merged
  | Rejected
  deriving DecidableEq, Repr

structure PullRequest where
  is_initialized : Bool
  source_workspace : Pubkey
  target_workspace : Pubkey
  source_version_hash : Hash
  target_version_hash : Hash
  proposer : Pubkey
  reviewer : Option Pubkey
  status : PRStatus
  created_at : Int
  reviewed_at : Option Int
  deriving DecidableEq, Repr

def PullRequest.LEN : Nat := 1 + 32 + 32 + 32 + 32 + 32 + (1 + 32) + 1 + 8 + (1 + 8)

/-- Borsh-serialized byte size of a PullRequest. -/
def PullRequest.serializedSize (p : PullRequest) : Nat :=
  1 + 32 + 32 + 32 + 32 + 32 + optSize 32 p.reviewer + 1 + 8 + optSize 8 p.reviewed_at

structure ExecutionLog where
  is_initialized : Bool
  workspace : Pubkey
  executor : Pubkey
  version_hash : Hash
  result_hash : Hash
  timestamp : Int
  deriving DecidableEq, Repr

def ExecutionLog.LEN : Nat := 1 + 32 + 32 + 32 + 32 + 8

/-- Borsh-serialized byte size of an ExecutionLog (all fields fixed width). -/
def ExecutionLog.serializedSize (_e : ExecutionLog) : Nat := 1 + 32 + 32 + 32 + 32 + 8

/-- The decoded content of an account owned by the program. -/
inductive Rec where
  | org : Organization → Rec
  | ws : Workspace → Rec
  | commit : VersionCommit → Rec
  | pr : PullRequest → Rec
  | exec : ExecutionLog → Rec
  deriving DecidableEq, Repr

/-! ## Errors (error.rs and the solana_program errors the handlers raise) -/

inductive VeriflowError where
  | InvalidInstruction
  | NotAuthorized
  | AlreadyInitialized
  | InvalidWorkspaceState
  | InvalidVersion
  | InvalidHash
  | PRNotApproved
  | InvalidPRState
  deriving DecidableEq, Repr

inductive ProgErr where
  /-- `ProgramError::MissingRequiredSignature` -/
  | MissingRequiredSignature
  /-- `ProgramError::InvalidSeeds` (the address-mismatch rejection) -/
  | InvalidSeeds
  /-- borsh decode/encode failure propagated by `?` -/
  | BorshIoError
  /-- `system_instruction::create_account` refused: account already in use -/
  | AccountAlreadyInUse
  /-- `ProgramError::Custom(e)` for a `VeriflowError` -/
  | Custom : VeriflowError → ProgErr
  deriving DecidableEq, Repr

/-! ## The state transition engine (processor.rs)

Each handler takes the account roles in the order `next_account_info` draws
them (key, signer flag, and decoded data where the handler reads or creates
the account), the clock value, and the instruction payload, and returns the
records it serializes, in serialization order.  Each `if`/`match` mirrors one
check of the Rust handler, in the same order. -/

/-- `process_initialize_organization` (processor.rs lines 56-110). -/
def process_initialize_organization (programId : Pubkey)
    (payerKey : Pubkey) (payerIsSigner : Bool)
    (orgKey : Pubkey) (orgData : Option Rec)
    (clockTime : Int) (org_slug : List Char) :
    Except ProgErr Organization :=
  if !payerIsSigner then .error .MissingRequiredSignature
  else
    -- Derive PDA
    let orgPda := findProgramAddress [ORG_SEED, strBytes org_slug] programId
    if orgPda ≠ orgKey then .error .InvalidSeeds
    -- create_account fails when the target account is already in use
    else if orgData.isSome then .error .AccountAlreadyInUse
    else
      let org : Organization :=
        { is_initialized := true, owner := payerKey,
          created_at := clockTime, workspace_count := 0 }
      if Organization.LEN < org.serializedSize then .error .BorshIoError
      else .ok org

/-- `process_initialize_workspace` (processor.rs lines 112-183). -/
def process_initialize_workspace (programId : Pubkey)
    (creatorKey : Pubkey) (creatorIsSigner : Bool)
    (wsKey : Pubkey) (wsData : Option Rec)
    (orgKey : Pubkey) (orgData : Option Rec)
    (clockTime : Int)
    (workspace_id : List Char) (_name : List Char) :
    Except ProgErr Workspace :=
  if !creatorIsSigner then .error .MissingRequiredSignature
  else
    -- Organization::try_from_slice
    match orgData with
    | some (Rec.org org) =>
      -- Verify organization exists
      if !org.is_initialized then .error (.Custom .InvalidWorkspaceState)
      -- Verify creator is org owner
      else if org.owner ≠ creatorKey then .error (.Custom .NotAuthorized)
      else
        -- Derive PDA
        let wsPda := findProgramAddress
          [WORKSPACE_SEED, pubkeyBytes orgKey, strBytes workspace_id] programId
        if wsPda ≠ wsKey then .error .InvalidSeeds
        else if wsData.isSome then .error .AccountAlreadyInUse
        else
          let workspace : Workspace :=
            { is_initialized := true, organization := orgKey, creator := creatorKey,
              current_version := 0, current_state_root := ZERO_HASH,
              parent_workspace := none, fork_at_version := none,
              created_at := clockTime }
          if Workspace.LEN < workspace.serializedSize then .error .BorshIoError
          else .ok workspace
    | _ => .error .BorshIoError

/-- `process_commit_version` (processor.rs lines 185-259). -/
def process_commit_version (programId : Pubkey)
    (authorKey : Pubkey) (authorIsSigner : Bool)
    (wsKey : Pubkey) (wsData : Option Rec)
    (versionKey : Pubkey) (versionData : Option Rec)
    (clockTime : Int)
    (content_hash : Hash) (message : List Char) :
    Except ProgErr (VersionCommit × Workspace) :=
  if !authorIsSigner then .error .MissingRequiredSignature
  else
    -- Workspace::try_from_slice
    match wsData with
    | some (Rec.ws workspace) =>
      if !workspace.is_initialized then .error (.Custom .InvalidWorkspaceState)
      else
        -- Increment version
        let newVersion := workspace.current_version + 1
        -- Derive version PDA
        let versionPda := findProgramAddress
          [VERSION_SEED, pubkeyBytes wsKey, u64le newVersion] programId
        if versionPda ≠ versionKey then .error .InvalidSeeds
        else if versionData.isSome then .error .AccountAlreadyInUse
        else
          -- Create version commit
          let version_commit : VersionCommit :=
            { is_initialized := true, workspace := wsKey,
              version_number := newVersion, content_hash := content_hash,
              parent_hash := workspace.current_state_root, author := authorKey,
              timestamp := clockTime,
              message := message.take VersionCommit.MAX_MESSAGE_LEN }
          if VersionCommit.LEN < version_commit.serializedSize then .error .BorshIoError
          else
            -- Update workspace state root (chain versions together)
            let workspace' := { workspace with
              current_version := newVersion, current_state_root := content_hash }
            if Workspace.LEN < workspace'.serializedSize then .error .BorshIoError
            else .ok (version_commit, workspace')
    | _ => .error .BorshIoError

/-- `process_create_fork` (processor.rs lines 261-334). -/
def process_create_fork (programId : Pubkey)
    (creatorKey : Pubkey) (creatorIsSigner : Bool)
    (parentKey : Pubkey) (parentData : Option Rec)
    (forkKey : Pubkey) (forkData : Option Rec)
    (orgKey : Pubkey)
    (clockTime : Int)
    (fork_workspace_id : List Char) (fork_at_version : Nat) (_name : List Char) :
    Except ProgErr Workspace :=
  if !creatorIsSigner then .error .MissingRequiredSignature
  else
    -- Load parent workspace
    match parentData with
    | some (Rec.ws parent_workspace) =>
      if !parent_workspace.is_initialized then .error (.Custom .InvalidWorkspaceState)
      -- Verify fork version exists
      else if parent_workspace.current_version < fork_at_version then
        .error (.Custom .InvalidVersion)
      else
        -- Derive fork PDA
        let forkPda := findProgramAddress
          [WORKSPACE_SEED, pubkeyBytes orgKey, strBytes fork_workspace_id] programId
        if forkPda ≠ forkKey then .error .InvalidSeeds
        else if forkData.isSome then .error .AccountAlreadyInUse
        else
          -- Initialize fork
          let fork_workspace : Workspace :=
            { is_initialized := true,
              organization := parent_workspace.organization,
              creator := creatorKey,
              current_version := fork_at_version,
              current_state_root := parent_workspace.current_state_root,
              parent_workspace := some parentKey,
              fork_at_version := some fork_at_version,
              created_at := clockTime }
          if Workspace.LEN < fork_workspace.serializedSize then .error .BorshIoError
          else .ok fork_workspace
    | _ => .error .BorshIoError

/-- `process_create_pull_request` (processor.rs lines 336-408). -/
def process_create_pull_request (programId : Pubkey)
    (proposerKey : Pubkey) (proposerIsSigner : Bool)
    (sourceKey : Pubkey) (sourceData : Option Rec)
    (targetKey : Pubkey) (targetData : Option Rec)
    (prKey : Pubkey) (prData : Option Rec)
    (clockTime : Int)
    (_title : List Char) (source_version_hash target_version_hash : Hash) :
    Except ProgErr PullRequest :=
  if !proposerIsSigner then .error .MissingRequiredSignature
  else
    -- Verify workspaces
    match sourceData, targetData with
    | some (Rec.ws source_workspace), some (Rec.ws target_workspace) =>
      if !source_workspace.is_initialized || !target_workspace.is_initialized then
        .error (.Custom .InvalidWorkspaceState)
      else
        -- Derive PR PDA (using both workspace keys as seed)
        let prPda := findProgramAddress
          [PR_SEED, pubkeyBytes sourceKey, pubkeyBytes targetKey] programId
        if prPda ≠ prKey then .error .InvalidSeeds
        else if prData.isSome then .error .AccountAlreadyInUse
        else
          -- Initialize PR
          let pr : PullRequest :=
            { is_initialized := true,
              source_workspace := sourceKey, target_workspace := targetKey,
              source_version_hash := source_version_hash,
              target_version_hash := target_version_hash,
              proposer := proposerKey, reviewer := none,
              status := PRStatus.Open, created_at := clockTime,
              reviewed_at := none }
          if PullRequest.LEN < pr.serializedSize then .error .BorshIoError
          else .ok pr
    | _, _ => .error .BorshIoError

/-- `process_approve_pull_request` (processor.rs lines 410-443).  Note: the
Rust handler ignores the program id and the organization account, and
performs no address derivation. -/
def process_approve_pull_request (_programId : Pubkey)
    (reviewerKey : Pubkey) (reviewerIsSigner : Bool)
    (_prKey : Pubkey) (prData : Option Rec)
    (_orgKey : Pubkey)
    (clockTime : Int) :
    Except ProgErr PullRequest :=
  if !reviewerIsSigner then .error .MissingRequiredSignature
  else
    -- Load PR
    match prData with
    | some (Rec.pr pr) =>
      if !pr.is_initialized then .error (.Custom .InvalidPRState)
      else if pr.status ≠ PRStatus.Open then .error (.Custom .InvalidPRState)
      else
        -- Update PR
        let pr' := { pr with status := PRStatus.Approved,
                             reviewer := some reviewerKey,
                             reviewed_at := some clockTime }
        if PullRequest.LEN < pr'.serializedSize then .error .BorshIoError
        else .ok pr'
    | _ => .error .BorshIoError

/-- `process_merge_pull_request` (processor.rs lines 445-532). -/
def process_merge_pull_request (programId : Pubkey)
    (mergerKey : Pubkey) (mergerIsSigner : Bool)
    (_prKey : Pubkey) (prData : Option Rec)
    (targetWsKey : Pubkey) (targetWsData : Option Rec)
    (versionKey : Pubkey) (versionData : Option Rec)
    (_orgKey : Pubkey)
    (clockTime : Int)
    (merge_commit_hash : Hash) (message : List Char) :
    Except ProgErr (VersionCommit × Workspace × PullRequest) :=
  if !mergerIsSigner then .error .MissingRequiredSignature
  else
    -- Load PR
    match prData with
    | some (Rec.pr pr) =>
      if !pr.is_initialized then .error (.Custom .InvalidPRState)
      else if pr.status ≠ PRStatus.Approved then .error (.Custom .PRNotApproved)
      else
        -- Load target workspace
        match targetWsData with
        | some (Rec.ws workspace) =>
          if !workspace.is_initialized then .error (.Custom .InvalidWorkspaceState)
          else
            -- Create merge commit (similar to commit_version)
            let newVersion := workspace.current_version + 1
            let versionPda := findProgramAddress
              [VERSION_SEED, pubkeyBytes targetWsKey, u64le newVersion] programId
            if versionPda ≠ versionKey then .error .InvalidSeeds
            else if versionData.isSome then .error .AccountAlreadyInUse
            else
              let version_commit : VersionCommit :=
                { is_initialized := true, workspace := targetWsKey,
                  version_number := newVersion,
                  content_hash := merge_commit_hash,
                  parent_hash := workspace.current_state_root,
                  author := mergerKey, timestamp := clockTime,
                  message := message.take VersionCommit.MAX_MESSAGE_LEN }
              if VersionCommit.LEN < version_commit.serializedSize then .error .BorshIoError
              else
                -- Update workspace
                let workspace' := { workspace with
                  current_version := newVersion,
                  current_state_root := merge_commit_hash }
                if Workspace.LEN < workspace'.serializedSize then .error .BorshIoError
                else
                  -- Update PR status
                  let pr' := { pr with status := PRStatus.Merged }
                  if PullRequest.LEN < pr'.serializedSize then .error .BorshIoError
                  else .ok (version_commit, workspace', pr')
        | _ => .error .BorshIoError
    | _ => .error .BorshIoError

/-- `process_record_execution` (processor.rs lines 534-601). -/
def process_record_execution (programId : Pubkey)
    (executorKey : Pubkey) (executorIsSigner : Bool)
    (wsKey : Pubkey) (wsData : Option Rec)
    (executionKey : Pubkey) (executionData : Option Rec)
    (clockTime : Int)
    (version_hash result_hash : Hash) :
    Except ProgErr ExecutionLog :=
  if !executorIsSigner then .error .MissingRequiredSignature
  else
    -- Verify workspace
    match wsData with
    | some (Rec.ws workspace) =>
      if !workspace.is_initialized then .error (.Custom .InvalidWorkspaceState)
      else
        -- Use timestamp as unique execution ID
        let execution_id := i64AsU64 clockTime
        -- Derive execution PDA
        let executionPda := findProgramAddress
          [EXECUTION_SEED, pubkeyBytes wsKey, u64le execution_id] programId
        if executionPda ≠ executionKey then .error .InvalidSeeds
        else if executionData.isSome then .error .AccountAlreadyInUse
        else
          -- Record execution
          let execution_log : ExecutionLog :=
            { is_initialized := true, workspace := wsKey,
              executor := executorKey, version_hash := version_hash,
              result_hash := result_hash, timestamp := clockTime }
          if ExecutionLog.LEN < execution_log.serializedSize then .error .BorshIoError
          else .ok execution_log
    | _ => .error .BorshIoError

/-- Tampering helper: bumping an address by one changes it. -/
theorem nat_add_one_ne (n : Nat) : n + 1 ≠ n := by omega

/-! ## Sizing lemmas -/

theorem organization_size_le (o : Organization) :
    o.serializedSize ≤ Organization.LEN := by
  simp [Organization.serializedSize, Organization.LEN]

theorem workspace_size_le (w : Workspace) :
    w.serializedSize ≤ Workspace.LEN := by
  rcases w with ⟨i, o, c, v, r, p, f, t⟩
  cases p <;> cases f <;>
    simp [Workspace.serializedSize, Workspace.LEN, optSize]

theorem pullrequest_size_le (p : PullRequest) :
    p.serializedSize ≤ PullRequest.LEN := by
  rcases p with ⟨i, s, t, sh, th, pp, rv, st, ca, ra⟩
  cases rv <;> cases ra <;>
    simp [PullRequest.serializedSize, PullRequest.LEN, optSize]

theorem executionlog_size_le (e : ExecutionLog) :
    e.serializedSize ≤ ExecutionLog.LEN := by
  simp [ExecutionLog.serializedSize, ExecutionLog.LEN]

/-! ## Iterated commits: the hash chain -/

/-- The chain condition of §3: against a starting root `r`, each commit's
`parent_hash` equals the previous commit's `content_hash` (the first one
equals `r`). -/
def chainOkB : Hash → List VersionCommit → Bool
  | _, [] => true
  | r, c :: cs => (c.parent_hash == r) && chainOkB c.content_hash cs

/-- Run `process_commit_version` once per hash of `hashes` against the same
workspace account, each time supplying the correctly derived address of the
new (fresh) version account, the empty message, and clock 0.  Returns the
final workspace record together with the version commits created, in order. -/
def commitChain (p aK wsKey : Pubkey) (ws : Workspace) :
    List Hash → Except ProgErr (Workspace × List VersionCommit)
  | [] => .ok (ws, [])
  | h :: rest =>
    match process_commit_version p aK true wsKey (some (Rec.ws ws))
        (findProgramAddress
          [VERSION_SEED, pubkeyBytes wsKey, u64le (ws.current_version + 1)] p)
        none 0 h [] with
    | .error e => .error e
    | .ok (c, ws') =>
      match commitChain p aK wsKey ws' rest with
      | .error e => .error e
      | .ok (wsF, cs) => .ok (wsF, c :: cs)

/-- What one correctly addressed commit against a fresh version account with
an empty message evaluates to. -/
theorem commit_version_eq (p aK wsKey : Pubkey) (ws : Workspace) (t : Int) (h : Hash)
    (hinit : ws.is_initialized = true) :
    process_commit_version p aK true wsKey (some (Rec.ws ws))
      (findProgramAddress
        [VERSION_SEED, pubkeyBytes wsKey, u64le (ws.current_version + 1)] p)
      none t h []
    = Except.ok
        ({ is_initialized := true, workspace := wsKey,
           version_number := ws.current_version + 1, content_hash := h,
           parent_hash := ws.current_state_root, author := aK,
           timestamp := t, message := [] },
         { ws with current_version := ws.current_version + 1,
                   current_state_root := h }) := by
  rw [process_commit_version]
  simp only [hinit, Bool.not_true, Bool.false_eq_true, if_false, ite_not,
    Option.isSome_none, Bool.false_eq_true, if_true, if_false]
  rw [if_neg (by
    simp [VersionCommit.serializedSize, VersionCommit.LEN,
      VersionCommit.MAX_MESSAGE_LEN, strUtf8Size, strBytes])]
  rw [if_neg (Nat.not_lt.mpr (workspace_size_le _))]
  simp [VersionCommit.MAX_MESSAGE_LEN]

/-- Correctness of an iterated commit run: the commits form a hash chain
rooted at the starting state root, their content hashes are the supplied
hashes, the final state root is the last supplied hash, and the version
counter advances by the number of commits. -/
theorem commitChain_ok (p aK wsKey : Pubkey) :
    ∀ (hashes : List Hash) (ws wsF : Workspace) (cs : List VersionCommit),
      ws.is_initialized = true →
      commitChain p aK wsKey ws hashes = Except.ok (wsF, cs) →
      chainOkB ws.current_state_root cs = true ∧
      cs.map VersionCommit.content_hash = hashes ∧
      wsF.current_state_root = hashes.getLastD ws.current_state_root ∧
      wsF.current_version = ws.current_version + hashes.length := by
  intro hashes
  induction hashes with
  | nil =>
    intro ws wsF cs _ hrun
    rw [commitChain] at hrun
    injection hrun with hrun
    injection hrun with h1 h2
    subst h1; subst h2
    simp [chainOkB]
  | cons h rest ih =>
    intro ws wsF cs hinit hrun
    rw [commitChain, commit_version_eq p aK wsKey ws 0 h hinit] at hrun
    simp only at hrun
    rcases hrec : commitChain p aK wsKey
        { ws with current_version := ws.current_version + 1,
                  current_state_root := h } rest with e | ⟨wsF', cs'⟩
    · rw [hrec] at hrun; exact absurd hrun (by simp)
    · rw [hrec] at hrun
      injection hrun with hrun
      injection hrun with h1 h2
      subst h1; subst h2
      obtain ⟨hchain, hmap, hlast, hver⟩ := ih _ _ _ (by simpa using hinit) hrec
      refine ⟨?_, ?_, ?_, ?_⟩
      · simp [chainOkB, hchain]
      · simp [hmap]
      · cases rest with
        | nil => simpa using hlast
        | cons a l => simpa [List.getLast?_cons_cons] using hlast
      · simp only [hver, List.length_cons]; omega

/-! ## Happy-path evaluation lemmas: each handler applied to well-formed
input, with the created account's key the derived one and its account fresh,
evaluates to `.ok` of the expected record(s). -/

/-- `process_initialize_organization` on good input. -/
theorem initialize_organization_eq (p payerKey : Pubkey) (t : Int) (slug : List Char) :
    process_initialize_organization p payerKey true
      (findProgramAddress [ORG_SEED, strBytes slug] p) none t slug
    = Except.ok { is_initialized := true, owner := payerKey,
                  created_at := t, workspace_count := 0 } := by
  rw [process_initialize_organization]
  simp only [Bool.not_true, Bool.false_eq_true, if_false, ite_not,
    Option.isSome_none, if_true]
  simp [Organization.serializedSize, Organization.LEN]

/-- `process_initialize_workspace` on good input. -/
theorem initialize_workspace_eq (p creatorKey orgKey : Pubkey)
    (org : Organization) (t : Int) (wid nm : List Char)
    (hini : org.is_initialized = true) (hown : org.owner = creatorKey) :
    process_initialize_workspace p creatorKey true
      (findProgramAddress [WORKSPACE_SEED, pubkeyBytes orgKey, strBytes wid] p)
      none orgKey (some (Rec.org org)) t wid nm
    = Except.ok { is_initialized := true, organization := orgKey,
                  creator := creatorKey, current_version := 0,
                  current_state_root := ZERO_HASH, parent_workspace := none,
                  fork_at_version := none, created_at := t } := by
  rw [process_initialize_workspace]
  simp only [hini, hown, Bool.not_true, Bool.false_eq_true, if_false, ite_not,
    Option.isSome_none, ne_eq, not_true_eq_false]
  simp [Workspace.serializedSize, Workspace.LEN, optSize]

/-- `process_create_fork` on good input. -/
theorem create_fork_eq (p creatorKey parentKey orgKey : Pubkey)
    (pw : Workspace) (t : Int) (fid nm : List Char) (v : Nat)
    (hini : pw.is_initialized = true) (hv : v ≤ pw.current_version) :
    process_create_fork p creatorKey true parentKey (some (Rec.ws pw))
      (findProgramAddress [WORKSPACE_SEED, pubkeyBytes orgKey, strBytes fid] p)
      none orgKey t fid v nm
    = Except.ok { is_initialized := true, organization := pw.organization,
                  creator := creatorKey, current_version := v,
                  current_state_root := pw.current_state_root,
                  parent_workspace := some parentKey,
                  fork_at_version := some v, created_at := t } := by
  rw [process_create_fork]
  simp only [hini, Bool.not_true, Bool.false_eq_true, if_false, ite_not,
    Option.isSome_none, Nat.not_lt.mpr hv]
  simp [Workspace.serializedSize, Workspace.LEN, optSize]

/-- `process_create_pull_request` on good input. -/
theorem create_pull_request_eq (p proposerKey sourceKey targetKey : Pubkey)
    (sw tw : Workspace) (t : Int) (ttl : List Char) (sh th : Hash)
    (hs : sw.is_initialized = true) (ht : tw.is_initialized = true) :
    process_create_pull_request p proposerKey true sourceKey (some (Rec.ws sw))
      targetKey (some (Rec.ws tw))
      (findProgramAddress [PR_SEED, pubkeyBytes sourceKey, pubkeyBytes targetKey] p)
      none t ttl sh th
    = Except.ok { is_initialized := true, source_workspace := sourceKey,
                  target_workspace := targetKey, source_version_hash := sh,
                  target_version_hash := th, proposer := proposerKey,
                  reviewer := none, status := PRStatus.Open,
                  created_at := t, reviewed_at := none } := by
  rw [process_create_pull_request]
  simp only [hs, ht, Bool.not_true, Bool.false_eq_true, Bool.or_self, if_false,
    ite_not, Option.isSome_none]
  simp [PullRequest.serializedSize, PullRequest.LEN, optSize]

/-- `process_approve_pull_request` on an Open PR.  Note that no address is
derived or compared: `prKey` is arbitrary. -/
theorem approve_pull_request_eq (p reviewerKey prKey orgKey : Pubkey)
    (pr : PullRequest) (t : Int)
    (hini : pr.is_initialized = true) (hstat : pr.status = PRStatus.Open) :
    process_approve_pull_request p reviewerKey true prKey (some (Rec.pr pr)) orgKey t
    = Except.ok { pr with status := PRStatus.Approved,
                          reviewer := some reviewerKey,
                          reviewed_at := some t } := by
  rw [process_approve_pull_request]
  simp only [hini, hstat, Bool.not_true, Bool.false_eq_true, if_false, ite_not,
    ne_eq, not_true_eq_false]
  rw [if_neg (Nat.not_lt.mpr (pullrequest_size_le _))]

/-- `process_merge_pull_request` on an Approved PR against an initialized
workspace, with an empty commit message.  Note that `targetWsKey` is NOT
required to equal `pr.target_workspace`. -/
theorem merge_pull_request_eq (p mergerKey prKey targetWsKey orgKey : Pubkey)
    (pr : PullRequest) (w : Workspace) (t : Int) (mh : Hash)
    (hpr : pr.is_initialized = true) (hstat : pr.status = PRStatus.Approved)
    (hw : w.is_initialized = true) :
    process_merge_pull_request p mergerKey true prKey (some (Rec.pr pr))
      targetWsKey (some (Rec.ws w))
      (findProgramAddress
        [VERSION_SEED, pubkeyBytes targetWsKey, u64le (w.current_version + 1)] p)
      none orgKey t mh []
    = Except.ok
        ({ is_initialized := true, workspace := targetWsKey,
           version_number := w.current_version + 1, content_hash := mh,
           parent_hash := w.current_state_root, author := mergerKey,
           timestamp := t, message := [] },
         { w with current_version := w.current_version + 1,
                  current_state_root := mh },
         { pr with status := PRStatus.Merged }) := by
  rw [process_merge_pull_request]
  simp only [hpr, hstat, hw, Bool.not_true, Bool.false_eq_true, if_false, ite_not,
    Option.isSome_none, ne_eq, not_true_eq_false]
  rw [if_neg (by
    simp [VersionCommit.serializedSize, VersionCommit.LEN,
      VersionCommit.MAX_MESSAGE_LEN, strUtf8Size, strBytes])]
  rw [if_neg (Nat.not_lt.mpr (workspace_size_le _))]
  rw [if_neg (Nat.not_lt.mpr (pullrequest_size_le _))]
  simp [VersionCommit.MAX_MESSAGE_LEN]

/-- `process_record_execution` on good input. -/
theorem record_execution_eq (p executorKey wsKey : Pubkey)
    (w : Workspace) (t : Int) (vh rh : Hash)
    (hini : w.is_initialized = true) :
    process_record_execution p executorKey true wsKey (some (Rec.ws w))
      (findProgramAddress
        [EXECUTION_SEED, pubkeyBytes wsKey, u64le (i64AsU64 t)] p)
      none t vh rh
    = Except.ok { is_initialized := true, workspace := wsKey,
                  executor := executorKey, version_hash := vh,
                  result_hash := rh, timestamp := t } := by
  rw [process_record_execution]
  simp only [hini, Bool.not_true, Bool.false_eq_true, if_false, ite_not,
    Option.isSome_none]
  simp [ExecutionLog.serializedSize, ExecutionLog.LEN]

/-! ## Success-extraction helpers: what a handler's `.ok` result forces -/

/-- A successful `process_commit_version` run: the workspace counter moves up
by exactly one, and the created commit links the chain. -/
theorem commit_version_success (p aK wsKey vKey : Pubkey) (w : Workspace)
    (vD : Option Rec) (t : Int) (h : Hash) (m : List Char)
    (c : VersionCommit) (w' : Workspace)
    (hsucc : process_commit_version p aK true wsKey (some (Rec.ws w)) vKey vD t h m
      = Except.ok (c, w')) :
    w.is_initialized = true ∧
    vKey = findProgramAddress
      [VERSION_SEED, pubkeyBytes wsKey, u64le (w.current_version + 1)] p ∧
    vD = none ∧
    w'.current_version = w.current_version + 1 ∧
    c.version_number = w.current_version + 1 ∧
    c.content_hash = h ∧
    c.parent_hash = w.current_state_root ∧
    w'.current_state_root = h ∧
    c.message = m.take VersionCommit.MAX_MESSAGE_LEN ∧
    w'.organization = w.organization := by
  simp only [process_commit_version, Bool.not_true, Bool.false_eq_true, if_false,
    ite_not] at hsucc
  split at hsucc
  case isTrue => exact Except.noConfusion hsucc
  case isFalse hini =>
  split at hsucc
  case isFalse => exact Except.noConfusion hsucc
  case isTrue hpda =>
  split at hsucc
  case isTrue => exact Except.noConfusion hsucc
  case isFalse hsome =>
  split at hsucc
  case isTrue => exact Except.noConfusion hsucc
  case isFalse =>
  split at hsucc
  case isTrue => exact Except.noConfusion hsucc
  case isFalse =>
  injection hsucc with hok
  injection hok with hc hw
  subst hc; subst hw
  refine ⟨by simpa using hini, hpda.symm,
    Option.not_isSome_iff_eq_none.mp (by simpa using hsome), ?_⟩
  simp

/-- A successful `process_initialize_organization` run. -/
theorem initialize_organization_success (p payerKey orgKey : Pubkey)
    (oD : Option Rec) (t : Int) (slug : List Char) (org : Organization)
    (hsucc : process_initialize_organization p payerKey true orgKey oD t slug
      = Except.ok org) :
    orgKey = findProgramAddress [ORG_SEED, strBytes slug] p ∧
    oD = none ∧
    org = { is_initialized := true, owner := payerKey,
            created_at := t, workspace_count := 0 } := by
  simp only [process_initialize_organization, Bool.not_true, Bool.false_eq_true,
    if_false, ite_not] at hsucc
  split at hsucc
  case isFalse => exact Except.noConfusion hsucc
  case isTrue hpda =>
  split at hsucc
  case isTrue => exact Except.noConfusion hsucc
  case isFalse hsome =>
  split at hsucc
  case isTrue => exact Except.noConfusion hsucc
  case isFalse =>
  injection hsucc with hok
  exact ⟨hpda.symm, Option.not_isSome_iff_eq_none.mp (by simpa using hsome), hok.symm⟩

/-- A successful `process_initialize_workspace` run: the organization record
is initialized and owned by the signing creator, the workspace address is
the derived one, the workspace account was fresh, and the created workspace
starts at version 0 with the all-zero state root and no fork fields. -/
theorem initialize_workspace_success (p creatorKey wsKey orgKey : Pubkey)
    (wD : Option Rec) (org : Organization) (t : Int) (wid nm : List Char)
    (ws : Workspace)
    (hsucc : process_initialize_workspace p creatorKey true wsKey wD orgKey
      (some (Rec.org org)) t wid nm = Except.ok ws) :
    org.is_initialized = true ∧
    org.owner = creatorKey ∧
    wsKey = findProgramAddress
      [WORKSPACE_SEED, pubkeyBytes orgKey, strBytes wid] p ∧
    wD = none ∧
    ws = { is_initialized := true, organization := orgKey, creator := creatorKey,
           current_version := 0, current_state_root := ZERO_HASH,
           parent_workspace := none, fork_at_version := none,
           created_at := t } := by
  simp only [process_initialize_workspace, Bool.not_true, Bool.false_eq_true,
    if_false, ite_not] at hsucc
  split at hsucc
  case isTrue => exact Except.noConfusion hsucc
  case isFalse hini =>
  split at hsucc
  case isFalse => exact Except.noConfusion hsucc
  case isTrue hown =>
  split at hsucc
  case isFalse => exact Except.noConfusion hsucc
  case isTrue hpda =>
  split at hsucc
  case isTrue => exact Except.noConfusion hsucc
  case isFalse hsome =>
  split at hsucc
  case isTrue => exact Except.noConfusion hsucc
  case isFalse =>
  injection hsucc with hok
  exact ⟨by simpa using hini, hown, hpda.symm,
    Option.not_isSome_iff_eq_none.mp (by simpa using hsome), hok.symm⟩

/-- A successful `process_create_fork` run: the requested version does not
exceed the parent's counter, the fork account is fresh at the derived
address, and the fork starts at `fork_at_version` with the parent's current
state root and a back-reference to the parent. -/
theorem create_fork_success (p creatorKey parentKey forkKey orgKey : Pubkey)
    (pw : Workspace) (fD : Option Rec) (t : Int) (fid nm : List Char)
    (v : Nat) (fw : Workspace)
    (hsucc : process_create_fork p creatorKey true parentKey (some (Rec.ws pw))
      forkKey fD orgKey t fid v nm = Except.ok fw) :
    pw.is_initialized = true ∧
    v ≤ pw.current_version ∧
    forkKey = findProgramAddress
      [WORKSPACE_SEED, pubkeyBytes orgKey, strBytes fid] p ∧
    fD = none ∧
    fw = { is_initialized := true, organization := pw.organization,
           creator := creatorKey, current_version := v,
           current_state_root := pw.current_state_root,
           parent_workspace := some parentKey, fork_at_version := some v,
           created_at := t } := by
  simp only [process_create_fork, Bool.not_true, Bool.false_eq_true,
    if_false, ite_not] at hsucc
  split at hsucc
  case isTrue => exact Except.noConfusion hsucc
  case isFalse hini =>
  split at hsucc
  case isTrue => exact Except.noConfusion hsucc
  case isFalse hver =>
  split at hsucc
  case isFalse => exact Except.noConfusion hsucc
  case isTrue hpda =>
  split at hsucc
  case isTrue => exact Except.noConfusion hsucc
  case isFalse hsome =>
  split at hsucc
  case isTrue => exact Except.noConfusion hsucc
  case isFalse =>
  injection hsucc with hok
  exact ⟨by simpa using hini, Nat.not_lt.mp hver, hpda.symm,
    Option.not_isSome_iff_eq_none.mp (by simpa using hsome), hok.symm⟩

/-- A successful `process_create_pull_request` run: both workspaces are
initialized, the PR account is fresh at the address derived from the two
workspace keys, and the created PR is Open with no reviewer. -/
theorem create_pull_request_success (p proposerKey sourceKey targetKey prKey : Pubkey)
    (sw tw : Workspace) (prD : Option Rec) (t : Int) (ttl : List Char)
    (sh th : Hash) (pr : PullRequest)
    (hsucc : process_create_pull_request p proposerKey true sourceKey
      (some (Rec.ws sw)) targetKey (some (Rec.ws tw)) prKey prD t ttl sh th
      = Except.ok pr) :
    sw.is_initialized = true ∧
    tw.is_initialized = true ∧
    prKey = findProgramAddress
      [PR_SEED, pubkeyBytes sourceKey, pubkeyBytes targetKey] p ∧
    prD = none ∧
    pr = { is_initialized := true, source_workspace := sourceKey,
           target_workspace := targetKey, source_version_hash := sh,
           target_version_hash := th, proposer := proposerKey,
           reviewer := none, status := PRStatus.Open, created_at := t,
           reviewed_at := none } := by
  simp only [process_create_pull_request, Bool.not_true, Bool.false_eq_true,
    if_false, ite_not] at hsucc
  split at hsucc
  case isTrue => exact Except.noConfusion hsucc
  case isFalse hini =>
  split at hsucc
  case isFalse => exact Except.noConfusion hsucc
  case isTrue hpda =>
  split at hsucc
  case isTrue => exact Except.noConfusion hsucc
  case isFalse hsome =>
  split at hsucc
  case isTrue => exact Except.noConfusion hsucc
  case isFalse =>
  injection hsucc with hok
  have hini' : sw.is_initialized = true ∧ tw.is_initialized = true := by
    constructor <;> by_contra hc <;> simp [Bool.not_eq_true] at hc <;>
      simp [hc] at hini
  exact ⟨hini'.1, hini'.2, hpda.symm,
    Option.not_isSome_iff_eq_none.mp (by simpa using hsome), hok.symm⟩

/-- A successful `process_approve_pull_request` run: the PR was Open, and the
written record is the same PR moved to Approved with the signer recorded as
reviewer. -/
theorem approve_pull_request_success (p reviewerKey prKey orgKey : Pubkey)
    (pr : PullRequest) (t : Int) (out : PullRequest)
    (hsucc : process_approve_pull_request p reviewerKey true prKey
      (some (Rec.pr pr)) orgKey t = Except.ok out) :
    pr.is_initialized = true ∧
    pr.status = PRStatus.Open ∧
    out = { pr with status := PRStatus.Approved,
                    reviewer := some reviewerKey,
                    reviewed_at := some t } := by
  simp only [process_approve_pull_request, Bool.not_true, Bool.false_eq_true,
    if_false, ite_not] at hsucc
  split at hsucc
  case isTrue => exact Except.noConfusion hsucc
  case isFalse hini =>
  split at hsucc
  case isFalse => exact Except.noConfusion hsucc
  case isTrue hstat =>
  split at hsucc
  case isTrue => exact Except.noConfusion hsucc
  case isFalse =>
  injection hsucc with hok
  exact ⟨by simpa using hini, hstat, hok.symm⟩

/-- A successful `process_merge_pull_request` run: the PR was Approved, the
target workspace advances by exactly one version to the merge hash, the
created commit links the old state root, and the PR becomes Merged. -/
theorem merge_pull_request_success (p mergerKey prKey targetWsKey vKey orgKey : Pubkey)
    (pr : PullRequest) (w : Workspace) (vD : Option Rec) (t : Int)
    (mh : Hash) (m : List Char)
    (c : VersionCommit) (w' : Workspace) (pr' : PullRequest)
    (hsucc : process_merge_pull_request p mergerKey true prKey (some (Rec.pr pr))
      targetWsKey (some (Rec.ws w)) vKey vD orgKey t mh m
      = Except.ok (c, w', pr')) :
    pr.is_initialized = true ∧
    pr.status = PRStatus.Approved ∧
    w.is_initialized = true ∧
    vKey = findProgramAddress
      [VERSION_SEED, pubkeyBytes targetWsKey, u64le (w.current_version + 1)] p ∧
    vD = none ∧
    c = { is_initialized := true, workspace := targetWsKey,
          version_number := w.current_version + 1, content_hash := mh,
          parent_hash := w.current_state_root, author := mergerKey,
          timestamp := t, message := m.take VersionCommit.MAX_MESSAGE_LEN } ∧
    w' = { w with current_version := w.current_version + 1,
                  current_state_root := mh } ∧
    pr' = { pr with status := PRStatus.Merged } := by
  simp only [process_merge_pull_request, Bool.not_true, Bool.false_eq_true,
    if_false, ite_not] at hsucc
  split at hsucc
  case isTrue => exact Except.noConfusion hsucc
  case isFalse hprini =>
  split at hsucc
  case isFalse => exact Except.noConfusion hsucc
  case isTrue hstat =>
  split at hsucc
  case isTrue => exact Except.noConfusion hsucc
  case isFalse hwini =>
  split at hsucc
  case isFalse => exact Except.noConfusion hsucc
  case isTrue hpda =>
  split at hsucc
  case isTrue => exact Except.noConfusion hsucc
  case isFalse hsome =>
  split at hsucc
  case isTrue => exact Except.noConfusion hsucc
  case isFalse =>
  split at hsucc
  case isTrue => exact Except.noConfusion hsucc
  case isFalse =>
  split at hsucc
  case isTrue => exact Except.noConfusion hsucc
  case isFalse =>
  injection hsucc with hok
  injection hok with hc hrest
  injection hrest with hw hpr
  exact ⟨by simpa using hprini, hstat, by simpa using hwini, hpda.symm,
    Option.not_isSome_iff_eq_none.mp (by simpa using hsome),
    hc.symm, hw.symm, hpr.symm⟩

/-- A successful `process_record_execution` run. -/
theorem record_execution_success (p executorKey wsKey execKey : Pubkey)
    (w : Workspace) (eD : Option Rec) (t : Int) (vh rh : Hash)
    (log : ExecutionLog)
    (hsucc : process_record_execution p executorKey true wsKey (some (Rec.ws w))
      execKey eD t vh rh = Except.ok log) :
    w.is_initialized = true ∧
    execKey = findProgramAddress
      [EXECUTION_SEED, pubkeyBytes wsKey, u64le (i64AsU64 t)] p ∧
    eD = none ∧
    log = { is_initialized := true, workspace := wsKey, executor := executorKey,
            version_hash := vh, result_hash := rh, timestamp := t } := by
  simp only [process_record_execution, Bool.not_true, Bool.false_eq_true,
    if_false, ite_not] at hsucc
  split at hsucc
  case isTrue => exact Except.noConfusion hsucc
  case isFalse hini =>
  split at hsucc
  case isFalse => exact Except.noConfusion hsucc
  case isTrue hpda =>
  split at hsucc
  case isTrue => exact Except.noConfusion hsucc
  case isFalse hsome =>
  split at hsucc
  case isTrue => exact Except.noConfusion hsucc
  case isFalse =>
  injection hsucc with hok
  exact ⟨by simpa using hini, hpda.symm,
    Option.not_isSome_iff_eq_none.mp (by simpa using hsome), hok.symm⟩

/-! ## The claims -/

/-- C2: a successful CommitVersion increments `current_version` by exactly 1
and creates a VersionCommit whose `version_number` is the incremented
counter, whose `content_hash` is the supplied hash, and whose `parent_hash`
is the pre-commit state root, then sets the root to the supplied hash; and
after InitializeWorkspace followed by N commits the commits form a hash
chain rooted at the all-zero creation root, with the final state root equal
to the last supplied content hash. -/
theorem C2_commit_version_effect_and_chain :
    (∀ (p aK wsKey vKey : Pubkey) (w : Workspace) (vD : Option Rec) (t : Int)
       (h : Hash) (m : List Char) (c : VersionCommit) (w' : Workspace),
       process_commit_version p aK true wsKey (some (Rec.ws w)) vKey vD t h m
         = Except.ok (c, w') →
       w'.current_version = w.current_version + 1 ∧
       c.version_number = w'.current_version ∧
       c.content_hash = h ∧
       c.parent_hash = w.current_state_root ∧
       w'.current_state_root = h) ∧
    (∀ (p cK orgKey aK : Pubkey) (org : Organization) (t : Int)
       (wid nm : List Char) (ws0 : Workspace) (hashes : List Hash)
       (wsF : Workspace) (cs : List VersionCommit),
       process_initialize_workspace p cK true
         (findProgramAddress [WORKSPACE_SEED, pubkeyBytes orgKey, strBytes wid] p)
         none orgKey (some (Rec.org org)) t wid nm = Except.ok ws0 →
       commitChain p aK
         (findProgramAddress [WORKSPACE_SEED, pubkeyBytes orgKey, strBytes wid] p)
         ws0 hashes = Except.ok (wsF, cs) →
       chainOkB ZERO_HASH cs = true ∧
       cs.map VersionCommit.content_hash = hashes ∧
       wsF.current_state_root = hashes.getLastD ZERO_HASH ∧
       wsF.current_version = hashes.length) := by
  constructor
  · intro p aK wsKey vKey w vD t h m c w' hsucc
    obtain ⟨-, -, -, h4, h5, h6, h7, h8, -, -⟩ :=
      commit_version_success p aK wsKey vKey w vD t h m c w' hsucc
    exact ⟨h4, by rw [h5, h4], h6, h7, h8⟩
  · intro p cK orgKey aK org t wid nm ws0 hashes wsF cs hinit hchain
    obtain ⟨-, -, -, -, hws0⟩ := initialize_workspace_success _ _ _ _ _ _ _ _ _ _ hinit
    subst hws0
    simpa using commitChain_ok p aK _ hashes _ wsF cs rfl hchain

/-- C3: CreateFork on an initialized parent rejects a `fork_at_version`
beyond the parent's counter with InvalidVersion; any successfully created
fork starts at exactly `fork_at_version` with the parent's *current* state
root, a back-reference to the parent's address, and `fork_at_version`
recorded; and with a valid version, the derived address and a fresh
account, the fork is indeed created. -/
theorem C3_create_fork_version_gate_and_fields :
    (∀ (p cK parentKey forkKey orgKey : Pubkey) (pw : Workspace)
       (fD : Option Rec) (t : Int) (fid nm : List Char) (v : Nat),
       pw.is_initialized = true →
       pw.current_version < v →
       process_create_fork p cK true parentKey (some (Rec.ws pw)) forkKey fD
         orgKey t fid v nm
         = Except.error (ProgErr.Custom VeriflowError.InvalidVersion)) ∧
    (∀ (p cK parentKey forkKey orgKey : Pubkey) (pw : Workspace)
       (fD : Option Rec) (t : Int) (fid nm : List Char) (v : Nat) (fw : Workspace),
       process_create_fork p cK true parentKey (some (Rec.ws pw)) forkKey fD
         orgKey t fid v nm = Except.ok fw →
       fw.current_version = v ∧
       fw.current_state_root = pw.current_state_root ∧
       fw.parent_workspace = some parentKey ∧
       fw.fork_at_version = some v) ∧
    (∀ (p cK parentKey orgKey : Pubkey) (pw : Workspace) (t : Int)
       (fid nm : List Char) (v : Nat),
       pw.is_initialized = true →
       v ≤ pw.current_version →
       process_create_fork p cK true parentKey (some (Rec.ws pw))
         (findProgramAddress [WORKSPACE_SEED, pubkeyBytes orgKey, strBytes fid] p)
         none orgKey t fid v nm
         = Except.ok { is_initialized := true, organization := pw.organization,
                       creator := cK, current_version := v,
                       current_state_root := pw.current_state_root,
                       parent_workspace := some parentKey,
                       fork_at_version := some v, created_at := t }) := by
  refine ⟨?_, ?_, ?_⟩
  · intro p cK parentKey forkKey orgKey pw fD t fid nm v hini hv
    simp [process_create_fork, hini, hv]
  · intro p cK parentKey forkKey orgKey pw fD t fid nm v fw hsucc
    obtain ⟨-, -, -, -, hfw⟩ :=
      create_fork_success p cK parentKey forkKey orgKey pw fD t fid nm v fw hsucc
    subst hfw
    exact ⟨rfl, rfl, rfl, rfl⟩
  · intro p cK parentKey orgKey pw t fid nm v hini hv
    exact create_fork_eq p cK parentKey orgKey pw t fid nm v hini hv

/-- C9: the workspace version counter never decreases.  A successful
CommitVersion or MergePullRequest advances the mutated workspace's
`current_version` by exactly 1; InitializeWorkspace and CreateFork only ever
write a workspace into an account that held no record before (the host
refuses to create an occupied account), the former at version 0 and the
latter at a version bounded by the parent's counter, which itself is not
written.  The remaining handlers (InitializeOrganization,
CreatePullRequest, ApprovePullRequest, RecordExecution) serialize no
Workspace record at all, as their result types in this file show. -/
theorem C9_current_version_never_decreases :
    (∀ (p aK wsKey vKey : Pubkey) (w : Workspace) (vD : Option Rec) (t : Int)
       (h : Hash) (m : List Char) (c : VersionCommit) (w' : Workspace),
       process_commit_version p aK true wsKey (some (Rec.ws w)) vKey vD t h m
         = Except.ok (c, w') →
       w'.current_version = w.current_version + 1) ∧
    (∀ (p mK prKey targetWsKey vKey orgKey : Pubkey) (pr : PullRequest)
       (w : Workspace) (vD : Option Rec) (t : Int) (mh : Hash) (m : List Char)
       (c : VersionCommit) (w' : Workspace) (pr' : PullRequest),
       process_merge_pull_request p mK true prKey (some (Rec.pr pr)) targetWsKey
         (some (Rec.ws w)) vKey vD orgKey t mh m = Except.ok (c, w', pr') →
       w'.current_version = w.current_version + 1) ∧
    (∀ (p cK wsKey orgKey : Pubkey) (wD : Option Rec) (org : Organization)
       (t : Int) (wid nm : List Char) (ws : Workspace),
       process_initialize_workspace p cK true wsKey wD orgKey
         (some (Rec.org org)) t wid nm = Except.ok ws →
       wD = none ∧ ws.current_version = 0) ∧
    (∀ (p cK parentKey forkKey orgKey : Pubkey) (pw : Workspace)
       (fD : Option Rec) (t : Int) (fid nm : List Char) (v : Nat) (fw : Workspace),
       process_create_fork p cK true parentKey (some (Rec.ws pw)) forkKey fD
         orgKey t fid v nm = Except.ok fw →
       fD = none ∧ fw.current_version = v ∧ v ≤ pw.current_version) := by
  refine ⟨?_, ?_, ?_, ?_⟩
  · intro p aK wsKey vKey w vD t h m c w' hsucc
    exact (commit_version_success p aK wsKey vKey w vD t h m c w' hsucc).2.2.2.1
  · intro p mK prKey targetWsKey vKey orgKey pr w vD t mh m c w' pr' hsucc
    obtain ⟨-, -, -, -, -, -, hw, -⟩ := merge_pull_request_success
      p mK prKey targetWsKey vKey orgKey pr w vD t mh m c w' pr' hsucc
    subst hw; rfl
  · intro p cK wsKey orgKey wD org t wid nm ws hsucc
    obtain ⟨-, -, -, hD, hws⟩ :=
      initialize_workspace_success p cK wsKey orgKey wD org t wid nm ws hsucc
    subst hws
    exact ⟨hD, rfl⟩
  · intro p cK parentKey forkKey orgKey pw fD t fid nm v fw hsucc
    obtain ⟨-, hv, -, hD, hfw⟩ :=
      create_fork_success p cK parentKey forkKey orgKey pw fD t fid nm v fw hsucc
    subst hfw
    exact ⟨hD, rfl, hv⟩

/-- C10: the decorative string parameters are dead: runs of
InitializeWorkspace differing only in `name`, of CreateFork differing only
in `name`, and of CreatePullRequest differing only in `title`, return
identical results — in this model the result carries every record the
handler persists, so the persisted records are identical too. -/
theorem C10_decorative_strings_ignored :
    (∀ (p cK : Pubkey) (s : Bool) (wsKey : Pubkey) (wD : Option Rec)
       (orgKey : Pubkey) (oD : Option Rec) (t : Int) (wid n1 n2 : List Char),
       process_initialize_workspace p cK s wsKey wD orgKey oD t wid n1
         = process_initialize_workspace p cK s wsKey wD orgKey oD t wid n2) ∧
    (∀ (p cK : Pubkey) (s : Bool) (parentKey : Pubkey) (pD : Option Rec)
       (forkKey : Pubkey) (fD : Option Rec) (orgKey : Pubkey) (t : Int)
       (fid : List Char) (v : Nat) (n1 n2 : List Char),
       process_create_fork p cK s parentKey pD forkKey fD orgKey t fid v n1
         = process_create_fork p cK s parentKey pD forkKey fD orgKey t fid v n2) ∧
    (∀ (p ppK : Pubkey) (s : Bool) (srcKey : Pubkey) (sD : Option Rec)
       (tgtKey : Pubkey) (tD : Option Rec) (prKey : Pubkey) (prD : Option Rec)
       (t : Int) (t1 t2 : List Char) (sh th : Hash),
       process_create_pull_request p ppK s srcKey sD tgtKey tD prKey prD t t1 sh th
         = process_create_pull_request p ppK s srcKey sD tgtKey tD prKey prD t t2 sh th) :=
  ⟨fun _ _ _ _ _ _ _ _ _ _ _ => rfl,
   fun _ _ _ _ _ _ _ _ _ _ _ _ _ => rfl,
   fun _ _ _ _ _ _ _ _ _ _ _ _ _ _ => rfl⟩

/-- C4: the PR status machine only advances Open → Approved → Merged.
Approve on an initialized PR whose status is not Open fails with
InvalidPRState; Merge on an initialized PR whose status is not Approved
fails with PRNotApproved (the status-precondition failure of the error
taxonomy); in this model an error result writes no record, so the stored PR
is unchanged.  The only PR records any handler writes carry status Open
(creation), Approved (from an Open PR), or Merged (from an Approved PR):
no handler ever produces Rejected or moves a status backwards. -/
theorem C4_pr_status_only_advances :
    (∀ (p rK prKey orgKey : Pubkey) (pr : PullRequest) (t : Int),
       pr.is_initialized = true →
       pr.status ≠ PRStatus.Open →
       process_approve_pull_request p rK true prKey (some (Rec.pr pr)) orgKey t
         = Except.error (ProgErr.Custom VeriflowError.InvalidPRState)) ∧
    (∀ (p mK prKey targetWsKey vKey orgKey : Pubkey) (pr : PullRequest)
       (wD vD : Option Rec) (t : Int) (mh : Hash) (m : List Char),
       pr.is_initialized = true →
       pr.status ≠ PRStatus.Approved →
       process_merge_pull_request p mK true prKey (some (Rec.pr pr)) targetWsKey
         wD vKey vD orgKey t mh m
         = Except.error (ProgErr.Custom VeriflowError.PRNotApproved)) ∧
    (∀ (p ppK srcKey tgtKey prKey : Pubkey) (sw tw : Workspace)
       (prD : Option Rec) (t : Int) (ttl : List Char) (sh th : Hash)
       (pr : PullRequest),
       process_create_pull_request p ppK true srcKey (some (Rec.ws sw)) tgtKey
         (some (Rec.ws tw)) prKey prD t ttl sh th = Except.ok pr →
       pr.status = PRStatus.Open) ∧
    (∀ (p rK prKey orgKey : Pubkey) (pr : PullRequest) (t : Int)
       (out : PullRequest),
       process_approve_pull_request p rK true prKey (some (Rec.pr pr)) orgKey t
         = Except.ok out →
       pr.status = PRStatus.Open ∧ out.status = PRStatus.Approved) ∧
    (∀ (p mK prKey targetWsKey vKey orgKey : Pubkey) (pr : PullRequest)
       (w : Workspace) (vD : Option Rec) (t : Int) (mh : Hash) (m : List Char)
       (c : VersionCommit) (w' : Workspace) (pr' : PullRequest),
       process_merge_pull_request p mK true prKey (some (Rec.pr pr)) targetWsKey
         (some (Rec.ws w)) vKey vD orgKey t mh m = Except.ok (c, w', pr') →
       pr.status = PRStatus.Approved ∧ pr'.status = PRStatus.Merged) := by
  refine ⟨?_, ?_, ?_, ?_, ?_⟩
  · intro p rK prKey orgKey pr t hini hstat
    simp [process_approve_pull_request, hini, hstat]
  · intro p mK prKey targetWsKey vKey orgKey pr wD vD t mh m hini hstat
    simp [process_merge_pull_request, hini, hstat]
  · intro p ppK srcKey tgtKey prKey sw tw prD t ttl sh th pr hsucc
    obtain ⟨-, -, -, -, hpr⟩ := create_pull_request_success
      p ppK srcKey tgtKey prKey sw tw prD t ttl sh th pr hsucc
    subst hpr; rfl
  · intro p rK prKey orgKey pr t out hsucc
    obtain ⟨-, hstat, hout⟩ :=
      approve_pull_request_success p rK prKey orgKey pr t out hsucc
    subst hout; exact ⟨hstat, rfl⟩
  · intro p mK prKey targetWsKey vKey orgKey pr w vD t mh m c w' pr' hsucc
    obtain ⟨-, hstat, -, -, -, -, -, hpr⟩ := merge_pull_request_success
      p mK prKey targetWsKey vKey orgKey pr w vD t mh m c w' pr' hsucc
    subst hpr; exact ⟨hstat, rfl⟩

/-- C5: a successful MergePullRequest advances the supplied target workspace
by exactly one version, records a merge commit whose `content_hash` is the
caller-supplied merge hash and whose `parent_hash` is the pre-merge state
root, moves the state root to the merge hash, and marks the PR Merged; an
initialized-but-not-Approved PR is rejected with PRNotApproved, an
uninitialized PR with InvalidPRState, and these errors are distinct. -/
theorem C5_merge_effect_and_error_split :
    (∀ (p mK prKey targetWsKey vKey orgKey : Pubkey) (pr : PullRequest)
       (w : Workspace) (vD : Option Rec) (t : Int) (mh : Hash) (m : List Char)
       (c : VersionCommit) (w' : Workspace) (pr' : PullRequest),
       process_merge_pull_request p mK true prKey (some (Rec.pr pr)) targetWsKey
         (some (Rec.ws w)) vKey vD orgKey t mh m = Except.ok (c, w', pr') →
       pr.status = PRStatus.Approved ∧
       w'.current_version = w.current_version + 1 ∧
       c.content_hash = mh ∧
       c.parent_hash = w.current_state_root ∧
       c.version_number = w.current_version + 1 ∧
       w'.current_state_root = mh ∧
       pr'.status = PRStatus.Merged) ∧
    (∀ (p mK prKey targetWsKey vKey orgKey : Pubkey) (pr : PullRequest)
       (wD vD : Option Rec) (t : Int) (mh : Hash) (m : List Char),
       pr.is_initialized = false →
       process_merge_pull_request p mK true prKey (some (Rec.pr pr)) targetWsKey
         wD vKey vD orgKey t mh m
         = Except.error (ProgErr.Custom VeriflowError.InvalidPRState)) ∧
    (∀ (p mK prKey targetWsKey vKey orgKey : Pubkey) (pr : PullRequest)
       (wD vD : Option Rec) (t : Int) (mh : Hash) (m : List Char),
       pr.is_initialized = true →
       pr.status ≠ PRStatus.Approved →
       process_merge_pull_request p mK true prKey (some (Rec.pr pr)) targetWsKey
         wD vKey vD orgKey t mh m
         = Except.error (ProgErr.Custom VeriflowError.PRNotApproved)) ∧
    (ProgErr.Custom VeriflowError.PRNotApproved
      ≠ ProgErr.Custom VeriflowError.InvalidPRState) := by
  refine ⟨?_, ?_, ?_, by decide⟩
  · intro p mK prKey targetWsKey vKey orgKey pr w vD t mh m c w' pr' hsucc
    obtain ⟨-, hstat, -, -, -, hc, hw, hpr⟩ := merge_pull_request_success
      p mK prKey targetWsKey vKey orgKey pr w vD t mh m c w' pr' hsucc
    subst hc; subst hw; subst hpr
    exact ⟨hstat, rfl, rfl, rfl, rfl, rfl, rfl⟩
  · intro p mK prKey targetWsKey vKey orgKey pr wD vD t mh m hini
    simp [process_merge_pull_request, hini]
  · intro p mK prKey targetWsKey vKey orgKey pr wD vD t mh m hini hstat
    simp [process_merge_pull_request, hini, hstat]

/-- C8: InitializeWorkspace requires a signing caller, an initialized
organization record, that the caller is the organization's owner (failing
with NotAuthorized otherwise), and that the supplied workspace address is
the derived one; a successful run creates a Workspace at the derived
address with `current_version` 0, the all-zero state root, and no
`parent_workspace` or `fork_at_version`. -/
theorem C8_initialize_workspace_auth_and_effect :
    (∀ (p cK wsKey orgKey : Pubkey) (wD oD : Option Rec) (t : Int)
       (wid nm : List Char),
       process_initialize_workspace p cK false wsKey wD orgKey oD t wid nm
         = Except.error ProgErr.MissingRequiredSignature) ∧
    (∀ (p cK wsKey orgKey : Pubkey) (wD : Option Rec) (org : Organization)
       (t : Int) (wid nm : List Char),
       org.is_initialized = false →
       process_initialize_workspace p cK true wsKey wD orgKey
         (some (Rec.org org)) t wid nm
         = Except.error (ProgErr.Custom VeriflowError.InvalidWorkspaceState)) ∧
    (∀ (p cK wsKey orgKey : Pubkey) (wD : Option Rec) (org : Organization)
       (t : Int) (wid nm : List Char),
       org.is_initialized = true →
       org.owner ≠ cK →
       process_initialize_workspace p cK true wsKey wD orgKey
         (some (Rec.org org)) t wid nm
         = Except.error (ProgErr.Custom VeriflowError.NotAuthorized)) ∧
    (∀ (p cK wsKey orgKey : Pubkey) (wD : Option Rec) (org : Organization)
       (t : Int) (wid nm : List Char),
       org.is_initialized = true →
       org.owner = cK →
       wsKey ≠ findProgramAddress
         [WORKSPACE_SEED, pubkeyBytes orgKey, strBytes wid] p →
       process_initialize_workspace p cK true wsKey wD orgKey
         (some (Rec.org org)) t wid nm
         = Except.error ProgErr.InvalidSeeds) ∧
    (∀ (p cK wsKey orgKey : Pubkey) (wD : Option Rec) (org : Organization)
       (t : Int) (wid nm : List Char) (ws : Workspace),
       process_initialize_workspace p cK true wsKey wD orgKey
         (some (Rec.org org)) t wid nm = Except.ok ws →
       org.is_initialized = true ∧
       org.owner = cK ∧
       wsKey = findProgramAddress
         [WORKSPACE_SEED, pubkeyBytes orgKey, strBytes wid] p ∧
       ws.current_version = 0 ∧
       ws.current_state_root = ZERO_HASH ∧
       ws.parent_workspace = none ∧
       ws.fork_at_version = none) := by
  refine ⟨?_, ?_, ?_, ?_, ?_⟩
  · intro p cK wsKey orgKey wD oD t wid nm
    simp [process_initialize_workspace]
  · intro p cK wsKey orgKey wD org t wid nm hini
    simp [process_initialize_workspace, hini]
  · intro p cK wsKey orgKey wD org t wid nm hini hown
    simp [process_initialize_workspace, hini, hown]
  · intro p cK wsKey orgKey wD org t wid nm hini hown hne
    simp [process_initialize_workspace, hini, hown, Ne.symm hne]
  · intro p cK wsKey orgKey wD org t wid nm ws hsucc
    obtain ⟨h1, h2, h3, -, hws⟩ :=
      initialize_workspace_success p cK wsKey orgKey wD org t wid nm ws hsucc
    subst hws
    exact ⟨h1, h2, h3, rfl, rfl, rfl, rfl⟩

/-- `process_commit_version` fails with BorshIoError when the truncated
message still serializes past the fixed `VersionCommit::LEN` allocation. -/
theorem commit_version_msg_overflow (p aK wsKey : Pubkey) (w : Workspace)
    (t : Int) (h : Hash) (m : List Char)
    (hini : w.is_initialized = true)
    (hbig : VersionCommit.LEN
      < 1 + 32 + 8 + 32 + 32 + 32 + 8
        + (4 + strUtf8Size (m.take VersionCommit.MAX_MESSAGE_LEN))) :
    process_commit_version p aK true wsKey (some (Rec.ws w))
      (findProgramAddress
        [VERSION_SEED, pubkeyBytes wsKey, u64le (w.current_version + 1)] p)
      none t h m
    = Except.error ProgErr.BorshIoError := by
  rw [process_commit_version]
  simp only [hini, Bool.not_true, Bool.false_eq_true, if_false, ite_not,
    Option.isSome_none, ne_eq, not_true_eq_false]
  split
  case isTrue => rfl
  case isFalse hc =>
    exact absurd (by simpa [VersionCommit.serializedSize] using hbig) hc

/-! ### Concrete scenario records used by the closed theorems below -/

/-- An initialized non-fork workspace held at the arbitrary address 20. -/
def cWs : Workspace :=
  { is_initialized := true, organization := 10, creator := 1,
    current_version := 0, current_state_root := ZERO_HASH,
    parent_workspace := none, fork_at_version := none, created_at := 0 }

/-- An Open pull request between the workspaces at addresses 1 and 2. -/
def cPrOpen : PullRequest :=
  { is_initialized := true, source_workspace := 1, target_workspace := 2,
    source_version_hash := 11, target_version_hash := 12, proposer := 3,
    reviewer := none, status := PRStatus.Open, created_at := 0,
    reviewed_at := none }

/-- An Approved pull request whose recorded target workspace is address 7. -/
def cPrApproved : PullRequest :=
  { is_initialized := true, source_workspace := 6, target_workspace := 7,
    source_version_hash := 11, target_version_hash := 12, proposer := 3,
    reviewer := some 4, status := PRStatus.Approved, created_at := 0,
    reviewed_at := some 0 }

/-- The address ApprovePullRequest would have to re-derive for `cPrOpen`
(PR seeds over its recorded source and target workspaces, program id 0). -/
def cPrDerived : Pubkey :=
  findProgramAddress
    [PR_SEED, pubkeyBytes cPrOpen.source_workspace,
     pubkeyBytes cPrOpen.target_workspace] 0

/-- A commit message of 64 two-byte characters: 64 chars survive the
`chars().take(64)` truncation but occupy 128 UTF-8 bytes, double the
64-byte message budget of `VersionCommit::LEN`. -/
def cOverflowMsg : List Char := List.replicate 64 (Char.ofNat 233)

/-- C1 (counterexample): ApprovePullRequest accepts a pull-request account
supplied at `cPrDerived + 1`, an address different from the derived
`cPrDerived`, and still approves and writes the record — it performs no
address-mismatch check at all for the pull-request role. -/
theorem C1_approve_accepts_mismatched_pr_address :
    cPrDerived + 1 ≠ cPrDerived ∧
    process_approve_pull_request 0 4 true (cPrDerived + 1)
      (some (Rec.pr cPrOpen)) 5 0
    = Except.ok { cPrOpen with status := PRStatus.Approved,
                               reviewer := some 4, reviewed_at := some 0 } :=
  ⟨nat_add_one_ne cPrDerived,
   approve_pull_request_eq 0 4 (cPrDerived + 1) 5 cPrOpen 0 rfl rfl⟩

/-- C1 (amended): only the account being *created* has its address
re-derived and compared.  For each of the seven creation sites — the
organization in InitializeOrganization, the workspace in
InitializeWorkspace, the version commit in CommitVersion and in
MergePullRequest, the fork workspace in CreateFork, the pull request in
CreatePullRequest, and the execution log in RecordExecution — once the
handler's earlier checks pass, a supplied address differing from the
derived one is rejected with InvalidSeeds, and no record is written.
ApprovePullRequest creates nothing and derives no address, and the
read/mutate roles (e.g. the workspace of CommitVersion, the PR of
ApprovePullRequest and MergePullRequest) are never address-checked. -/
theorem C1_created_record_address_mismatch_rejected :
    (∀ (p payerKey orgKey : Pubkey) (oD : Option Rec) (t : Int) (slug : List Char),
       orgKey ≠ findProgramAddress [ORG_SEED, strBytes slug] p →
       process_initialize_organization p payerKey true orgKey oD t slug
         = Except.error ProgErr.InvalidSeeds) ∧
    (∀ (p cK wsKey orgKey : Pubkey) (wD : Option Rec) (org : Organization)
       (t : Int) (wid nm : List Char),
       org.is_initialized = true →
       org.owner = cK →
       wsKey ≠ findProgramAddress
         [WORKSPACE_SEED, pubkeyBytes orgKey, strBytes wid] p →
       process_initialize_workspace p cK true wsKey wD orgKey
         (some (Rec.org org)) t wid nm
         = Except.error ProgErr.InvalidSeeds) ∧
    (∀ (p aK wsKey vKey : Pubkey) (w : Workspace) (vD : Option Rec) (t : Int)
       (h : Hash) (m : List Char),
       w.is_initialized = true →
       vKey ≠ findProgramAddress
         [VERSION_SEED, pubkeyBytes wsKey, u64le (w.current_version + 1)] p →
       process_commit_version p aK true wsKey (some (Rec.ws w)) vKey vD t h m
         = Except.error ProgErr.InvalidSeeds) ∧
    (∀ (p cK parentKey forkKey orgKey : Pubkey) (pw : Workspace)
       (fD : Option Rec) (t : Int) (fid nm : List Char) (v : Nat),
       pw.is_initialized = true →
       v ≤ pw.current_version →
       forkKey ≠ findProgramAddress
         [WORKSPACE_SEED, pubkeyBytes orgKey, strBytes fid] p →
       process_create_fork p cK true parentKey (some (Rec.ws pw)) forkKey fD
         orgKey t fid v nm
         = Except.error ProgErr.InvalidSeeds) ∧
    (∀ (p ppK srcKey tgtKey prKey : Pubkey) (sw tw : Workspace)
       (prD : Option Rec) (t : Int) (ttl : List Char) (sh th : Hash),
       sw.is_initialized = true →
       tw.is_initialized = true →
       prKey ≠ findProgramAddress
         [PR_SEED, pubkeyBytes srcKey, pubkeyBytes tgtKey] p →
       process_create_pull_request p ppK true srcKey (some (Rec.ws sw)) tgtKey
         (some (Rec.ws tw)) prKey prD t ttl sh th
         = Except.error ProgErr.InvalidSeeds) ∧
    (∀ (p mK prKey targetWsKey vKey orgKey : Pubkey) (pr : PullRequest)
       (w : Workspace) (vD : Option Rec) (t : Int) (mh : Hash) (m : List Char),
       pr.is_initialized = true →
       pr.status = PRStatus.Approved →
       w.is_initialized = true →
       vKey ≠ findProgramAddress
         [VERSION_SEED, pubkeyBytes targetWsKey, u64le (w.current_version + 1)] p →
       process_merge_pull_request p mK true prKey (some (Rec.pr pr)) targetWsKey
         (some (Rec.ws w)) vKey vD orgKey t mh m
         = Except.error ProgErr.InvalidSeeds) ∧
    (∀ (p eK wsKey execKey : Pubkey) (w : Workspace) (eD : Option Rec)
       (t : Int) (vh rh : Hash),
       w.is_initialized = true →
       execKey ≠ findProgramAddress
         [EXECUTION_SEED, pubkeyBytes wsKey, u64le (i64AsU64 t)] p →
       process_record_execution p eK true wsKey (some (Rec.ws w)) execKey eD t vh rh
         = Except.error ProgErr.InvalidSeeds) := by
  refine ⟨?_, ?_, ?_, ?_, ?_, ?_, ?_⟩
  · intro p payerKey orgKey oD t slug hne
    simp [process_initialize_organization, Ne.symm hne]
  · intro p cK wsKey orgKey wD org t wid nm hini hown hne
    simp [process_initialize_workspace, hini, hown, Ne.symm hne]
  · intro p aK wsKey vKey w vD t h m hini hne
    simp [process_commit_version, hini, Ne.symm hne]
  · intro p cK parentKey forkKey orgKey pw fD t fid nm v hini hv hne
    simp [process_create_fork, hini, Nat.not_lt.mpr hv, Ne.symm hne]
  · intro p ppK srcKey tgtKey prKey sw tw prD t ttl sh th hs ht hne
    simp [process_create_pull_request, hs, ht, Ne.symm hne]
  · intro p mK prKey targetWsKey vKey orgKey pr w vD t mh m hpr hstat hw hne
    simp [process_merge_pull_request, hpr, hstat, hw, Ne.symm hne]
  · intro p eK wsKey execKey w eD t vh rh hini hne
    simp [process_record_execution, hini, Ne.symm hne]

set_option maxRecDepth 100000 in
/-- C6 (the failing input): the VersionCommit message is truncated to 64
*characters* while the `VersionCommit::LEN` allocation budgets 64 message
*bytes*; a message of 64 two-byte characters survives truncation at 128
UTF-8 bytes, the record's serialized size (277) exceeds LEN (213), and
CommitVersion fails with BorshIoError instead of persisting the commit. -/
theorem C6_message_overflows_fixed_allocation :
    (cOverflowMsg.take VersionCommit.MAX_MESSAGE_LEN).length = 64 ∧
    strUtf8Size (cOverflowMsg.take VersionCommit.MAX_MESSAGE_LEN) = 128 ∧
    VersionCommit.LEN = 213 ∧
    1 + 32 + 8 + 32 + 32 + 32 + 8
      + (4 + strUtf8Size (cOverflowMsg.take VersionCommit.MAX_MESSAGE_LEN)) = 277 ∧
    process_commit_version 0 1 true 20 (some (Rec.ws cWs))
      (findProgramAddress
        [VERSION_SEED, pubkeyBytes 20, u64le (cWs.current_version + 1)] 0)
      none 0 5 cOverflowMsg
    = Except.error ProgErr.BorshIoError :=
  ⟨by decide, by decide, by decide, by decide,
   commit_version_msg_overflow 0 1 20 cWs 0 5 cOverflowMsg rfl (by decide)⟩

/-- C7: MergePullRequest never compares the supplied target-workspace
account against the PR's recorded `target_workspace`: here the PR names
address 7 as its target, the caller supplies the initialized workspace at
address 8, and the merge succeeds, advancing the version counter of the
supplied workspace and binding the new commit to address 8. -/
theorem C7_merge_ignores_recorded_target_workspace :
    (8 : Pubkey) ≠ cPrApproved.target_workspace ∧
    cPrApproved.status = PRStatus.Approved ∧
    cWs.is_initialized = true ∧
    process_merge_pull_request 0 4 true 30 (some (Rec.pr cPrApproved)) 8
      (some (Rec.ws cWs))
      (findProgramAddress
        [VERSION_SEED, pubkeyBytes 8, u64le (cWs.current_version + 1)] 0)
      none 9 0 55 []
    = Except.ok
        ({ is_initialized := true, workspace := 8,
           version_number := cWs.current_version + 1, content_hash := 55,
           parent_hash := cWs.current_state_root, author := 4,
           timestamp := 0, message := [] },
         { cWs with current_version := cWs.current_version + 1,
                    current_state_root := 55 },
         { cPrApproved with status := PRStatus.Merged }) :=
  ⟨by decide, rfl, rfl,
   merge_pull_request_eq 0 4 30 8 9 cPrApproved cWs 0 55 rfl rfl rfl⟩

end Veriflow
